import Mathlib

/-!
Verification development for `src/grain_api_wrapper.py` (grain-team/grain-workspace-api-example).

The Python program is shallowly embedded below.  JSON values handled by the
program are modelled by `PyVal`; the local filesystem (checkpoint file, the
date-partitioned output tree) is modelled by the explicit state record `World`
threaded through every effectful function.  The remote HTTP collaborator
(`GrainAPIClient.list_recordings` and `GrainAPIClient.get_recording`) is
abstracted as oracle functions passed in as parameters, exactly at the
boundary the specification declares external.  Observable console output that
the claims refer to (error logs, checkpoint-save messages, skip messages) is
modelled as the `events` trace of `World`; purely cosmetic progress prints are
elided.  Wall-clock timestamps and `time.sleep` throttling are not modelled.
-/

namespace Grain

/-- A Python/JSON value as handled by the program: `null`, booleans, integers,
strings, lists and string-keyed dicts.  Dicts are association lists with the
keys already unique (Python dict semantics after construction). -/
inductive PyVal where
  | nullv : PyVal
  | bool : Bool → PyVal
  | int : Int → PyVal
  | str : String → PyVal
  | list : List PyVal → PyVal
  | dict : List (String × PyVal) → PyVal

/-- A Python dict with string keys, as produced by `json` decoding. -/
abbrev PyDict := List (String × PyVal)

/-- Is the first character list a prefix of the second? -/
def charsPrefixOf : List Char → List Char → Bool
  | [], _ => true
  | _ :: _, [] => false
  | p :: ps, c :: cs => (p = c) && charsPrefixOf ps cs

/-- Python `s.startswith(pre)`: character-level prefix test. -/
def pyStartswith (s pre : String) : Bool := charsPrefixOf pre.data s.data

/-- Dict lookup, modelling `d.get(k)` (returns `none` when the key is absent). -/
def pyDictGet (d : PyDict) (k : String) : Option PyVal :=
  match d with
  | [] => none
  | (k2, v) :: rest => if k2 = k then some v else pyDictGet rest k

/-- Python truthiness of a value, as used by `if start_datetime_str:` and
`if not cursor:` in the source: `None`, `False`, `0`, the empty string and
empty containers are falsy. -/
def pyTruthy : PyVal → Bool
  | .nullv => false
  | .bool b => b
  | .int n => if n = 0 then false else true
  | .str s => !s.data.isEmpty
  | .list l => !l.isEmpty
  | .dict d => !d.isEmpty

/-- A single-quote character, used by the Python `repr` of strings. -/
def squote : String := String.singleton (Char.ofNat 39)

/-- Python `repr`/`str` for non-string scalars.  Container values are
abbreviated: no claim of this development ever observes `str()` of a list or
dict (recording ids are strings in every scenario the claims describe), so the
exact recursive repr of containers is irrelevant and not modelled. -/
def pyReprAtom : PyVal → String
  | .nullv => "None"
  | .bool true => "True"
  | .bool false => "False"
  | .int n => toString n
  | .str s => squote ++ s ++ squote
  | .list _ => "[...]"
  | .dict _ => "\x7b...\x7d"

/-- Python `str()` as used by f-string interpolation (`f"{recording_id}_..."`):
a string interpolates as itself, other values via their repr. -/
def pyStr : PyVal → String
  | .str s => s
  | v => pyReprAtom v

/-! ### Embedding of `datetime.fromisoformat(start_datetime_str.replace("Z", "+00:00"))`

The program only ever extracts `(year, month, day)` from the parsed datetime,
so the parser below returns exactly that triple, or `none` when CPython
`datetime.fromisoformat` would raise `ValueError`.  The modelled grammar is
the ISO-8601 subset `YYYY-MM-DD[<sep>HH[:MM[:SS[.f\x7b1..6\x7d]]]][±HH:MM[:SS]]`
with full calendar validation (month and day ranges, leap years, year 1..9999);
exotic corners of the CPython grammar (fractional offsets, comma decimal
separators) are outside every claim and not modelled. -/

/-- Value of a decimal digit character, `none` for non-digits. -/
def digitVal (c : Char) : Option Nat :=
  if c.isDigit then some (c.toNat - 48) else none

/-- Read two decimal digits as a number, returning the remaining characters. -/
def readPair : List Char → Option (Nat × List Char)
  | c1 :: c2 :: rest =>
    match digitVal c1, digitVal c2 with
    | some a, some b => some (10 * a + b, rest)
    | _, _ => none
  | _ => none

/-- Gregorian leap-year test, as in the Python `datetime` module. -/
def isLeap (y : Nat) : Bool := (y % 4 = 0 && y % 100 ≠ 0) || y % 400 = 0

/-- Number of days in a month of the proleptic Gregorian calendar. -/
def daysInMonth (y m : Nat) : Nat :=
  if m = 2 then (if isLeap y then 29 else 28)
  else if m = 4 || m = 6 || m = 9 || m = 11 then 30
  else 31

/-- Read the leading `YYYY-MM-DD` characters, without range validation. -/
def readYMD : List Char → Option (Nat × Nat × Nat × List Char)
  | y1 :: y2 :: y3 :: y4 :: '-' :: a1 :: a2 :: '-' :: b1 :: b2 :: rest =>
    match digitVal y1, digitVal y2, digitVal y3, digitVal y4,
          digitVal a1, digitVal a2, digitVal b1, digitVal b2 with
    | some v1, some v2, some v3, some v4, some v5, some v6, some v7, some v8 =>
      some (1000 * v1 + 100 * v2 + 10 * v3 + v4, 10 * v5 + v6, 10 * v7 + v8, rest)
    | _, _, _, _, _, _, _, _ => none
  | _ => none

/-- Validate a UTC-offset suffix after its sign: `HH:MM` or `HH:MM:SS`. -/
def validOffsetTail (cs : List Char) : Bool :=
  match readPair cs with
  | some (hh, rest) =>
    hh < 24 &&
      (match rest with
       | ':' :: r2 =>
         (match readPair r2 with
          | some (mm, r3) =>
            mm < 60 &&
              (match r3 with
               | [] => true
               | ':' :: r4 =>
                 (match readPair r4 with
                  | some (ss, r5) => ss < 60 && r5.isEmpty
                  | none => false)
               | _ => false)
          | none => false)
       | _ => false)
  | none => false

/-- Validate a UTC-offset suffix `±HH:MM[:SS]`. -/
def validOffset : List Char → Bool
  | '+' :: rest => validOffsetTail rest
  | '-' :: rest => validOffsetTail rest
  | _ => false

/-- After a fractional-seconds field: either the string ends or an offset follows. -/
def afterFrac (cs : List Char) : Bool := cs.isEmpty || validOffset cs

/-- Validate what may follow the seconds field: end of string, a fractional
part of one to six digits, or a UTC offset. -/
def validFracOrOffset : List Char → Bool
  | [] => true
  | '.' :: rest =>
    let digits := rest.takeWhile Char.isDigit
    let rest2 := rest.dropWhile Char.isDigit
    decide (1 ≤ digits.length) && decide (digits.length ≤ 6) && afterFrac rest2
  | cs => validOffset cs

/-- Validate the time-of-day part following the date separator:
`HH[:MM[:SS[.frac]]]` optionally followed by a UTC offset. -/
def validTimePart (cs : List Char) : Bool :=
  match readPair cs with
  | some (hh, rest) =>
    hh < 24 &&
      (match rest with
       | [] => true
       | ':' :: r2 =>
         (match readPair r2 with
          | some (mm, r3) =>
            mm < 60 &&
              (match r3 with
               | [] => true
               | ':' :: r4 =>
                 (match readPair r4 with
                  | some (ss, r5) => ss < 60 && validFracOrOffset r5
                  | none => false)
               | _ => validOffset r3)
          | none => false)
       | _ => validOffset rest)
  | none => false

/-- Parse an ISO datetime character list to `(year, month, day)`, validating
the calendar date and the optional time-of-day part. -/
def parseIsoChars (cs : List Char) : Option (Nat × Nat × Nat) :=
  match readYMD cs with
  | some (y, m, d, rest) =>
    if 1 ≤ y ∧ y ≤ 9999 ∧ 1 ≤ m ∧ m ≤ 12 ∧ 1 ≤ d ∧ d ≤ daysInMonth y m then
      match rest with
      | [] => some (y, m, d)
      | _ :: timeRest => if validTimePart timeRest then some (y, m, d) else none
    else none
  | none => none

/-- Replace every `Z` character by `+00:00`, modelling
`start_datetime_str.replace("Z", "+00:00")` (line 160 of the source). -/
def pyReplaceZ : List Char → List Char
  | [] => []
  | c :: rest =>
    if c = 'Z' then '+' :: '0' :: '0' :: ':' :: '0' :: '0' :: pyReplaceZ rest
    else c :: pyReplaceZ rest

/-- The date parse performed at lines 160 and 281 of the source:
`datetime.fromisoformat(s.replace("Z", "+00:00"))`, reduced to the
`(year, month, day)` triple the program uses.  `none` models `ValueError`. -/
def pyParseDatetime (s : String) : Option (Nat × Nat × Nat) :=
  parseIsoChars (pyReplaceZ s.data)

/-! ### Title sanitization (lines 175-180 of the source) -/

/-- Python `str.isalnum` on a single character, modelled exactly for code
points below `0x100` (ASCII digits and letters; the Latin-1 supplement
letters, `ª µ º`, superscripts `¹ ² ³` and vulgar fractions `¼ ½ ¾`; the
signs `×` and `÷` excluded).  Code points at or above `0x100` are treated as
non-alphanumeric; theorems that depend on this function restrict titles to
the Latin-1 range, which covers every title any claim mentions. -/
def pyIsAlnum (c : Char) : Bool :=
  let n := c.toNat
  (48 ≤ n && n ≤ 57) || (65 ≤ n && n ≤ 90) || (97 ≤ n && n ≤ 122) ||
  n = 0xAA || n = 0xB2 || n = 0xB3 || n = 0xB5 || n = 0xB9 || n = 0xBA ||
  (0xBC ≤ n && n ≤ 0xBE) ||
  (0xC0 ≤ n && n ≤ 0xFF && n ≠ 0xD7 && n ≠ 0xF7)

/-- Python whitespace test used by `str.rstrip()`, for the Latin-1 range. -/
def pyIsSpaceChar (c : Char) : Bool :=
  c = ' ' || c = '\t' || c = '\n' || c = '\r' ||
  c.toNat = 11 || c.toNat = 12 || c.toNat = 0x85 || c.toNat = 0xA0

/-- Python `str.rstrip()`: drop trailing whitespace characters. -/
def pyRstrip (cs : List Char) : List Char :=
  (cs.reverse.dropWhile pyIsSpaceChar).reverse

/-- The filename title component of `save_recording_to_json` (lines 177-180):
keep characters that satisfy `c.isalnum()` or are space, hyphen or
underscore; right-strip; then slice to the first 50 characters. -/
def sanitizeTitle (title : String) : String :=
  let kept := title.data.filter (fun c => pyIsAlnum c || c = ' ' || c = '-' || c = '_')
  String.mk ((pyRstrip kept).take 50)

/-! ### Date-partition paths (lines 160-169 and 281-289 of the source) -/

/-- Python `f"\x7bn:02d\x7d"`: decimal with a leading zero below ten. -/
def pad2 (n : Nat) : String :=
  if n < 10 then "0" ++ toString n else toString n

/-- The date-partition directory `os.path.join(root, str(y), f"\x7bm:02d\x7d", f"\x7bd:02d\x7d")`. -/
def dateDirPath (root : String) (y m d : Nat) : String :=
  root ++ "/" ++ toString y ++ "/" ++ pad2 m ++ "/" ++ pad2 d

/-! ### The local filesystem and observable log, as explicit state -/

/-- Errors the program observes: network transport failure and HTTP 404 from
the remote fetch, and Python `KeyError` / `TypeError` raised locally. -/
inductive PyErr where
  | transport : PyErr
  | notFound : PyErr
  | keyError : String → PyErr
  | typeError : PyErr
deriving DecidableEq

/-- Observable log entries: the per-record callback being invoked (used to
trace `process_all_recordings`), the skip message for an already-downloaded
recording, a saved artifact, a checkpoint save, and a logged error. -/
inductive Event where
  | cbCall : Nat → Event
  | skippedExisting : Event
  | savedFile : String → Event
  | savedCheckpoint : String → Nat → Event
  | errorLogged : PyErr → Event
deriving DecidableEq

/-- The state the program acts on: the checkpoint file content (already
parsed, `none` when absent; the wall-clock timestamp field is not modelled),
the set of existing directories with their entries, the written artifact
files with their JSON content, and the observable log. -/
structure World where
  checkpoint : Option (String × Nat)
  dirs : List (String × List String)
  files : List (String × PyDict)
  events : List Event

/-- The initial state: nothing on disk, nothing logged. -/
def emptyWorld : World :=
  { checkpoint := none, dirs := [], files := [], events := [] }

/-- Association-list lookup for the directory table. -/
def dirsGet : List (String × List String) → String → Option (List String)
  | [], _ => none
  | (p, es) :: rest, q => if p = q then some es else dirsGet rest q

/-- Does a directory exist (`os.path.exists`)? -/
def dirExists (w : World) (p : String) : Bool := (dirsGet w.dirs p).isSome

/-- Directory listing (`os.listdir`); empty for a missing directory. -/
def listdir (w : World) (p : String) : List String := (dirsGet w.dirs p).getD []

/-- Split a path string at slash characters. -/
def splitSlashAux : List Char → List Char → List String
  | [], acc => [String.mk acc.reverse]
  | '/' :: rest, acc => String.mk acc.reverse :: splitSlashAux rest []
  | c :: rest, acc => splitSlashAux rest (c :: acc)

/-- Components of a slash-separated path. -/
def splitSlash (p : String) : List String := splitSlashAux p.data []

/-- All ancestor paths of a path, shortest first, ending with the path itself. -/
def pathPrefixList (p : String) : List String :=
  let parts := splitSlash p
  (List.range parts.length).map (fun i => String.intercalate "/" (parts.take (i + 1)))

/-- Register a directory in the table when absent. -/
def dirsEnsure (ds : List (String × List String)) (q : String) : List (String × List String) :=
  match dirsGet ds q with
  | some _ => ds
  | none => ds ++ [(q, [])]

/-- Model of `os.makedirs(p, exist_ok=True)`: create the directory and every
ancestor that does not exist yet. -/
def mkdirs (w : World) (p : String) : World :=
  { w with dirs := (pathPrefixList p).foldl dirsEnsure w.dirs }

/-- Add a filename to the entries of a directory (creating the entry if the
file is new; rewriting an existing file leaves the listing unchanged). -/
def dirsAddFile : List (String × List String) → String → String → List (String × List String)
  | [], d, f => [(d, [f])]
  | (p, es) :: rest, d, f =>
    if p = d then (p, if f ∈ es then es else es ++ [f]) :: rest
    else (p, es) :: dirsAddFile rest d f

/-- Record a written file content, overwriting a previous version. -/
def filesSet : List (String × PyDict) → String → PyDict → List (String × PyDict)
  | [], p, c => [(p, c)]
  | (q, c0) :: rest, p, c =>
    if q = p then (q, c) :: rest else (q, c0) :: filesSet rest p c

/-- Model of writing a JSON artifact: the filename appears in the listing of
its directory and the content is recorded. -/
def writeFile (w : World) (dirPath fname : String) (content : PyDict) : World :=
  { w with
    dirs := dirsAddFile w.dirs dirPath fname,
    files := filesSet w.files (dirPath ++ "/" ++ fname) content }

/-- Model of `print(f"  Error: \x7be\x7d")`: append an error-log event. -/
def logError (w : World) (e : PyErr) : World :=
  { w with events := w.events ++ [Event.errorLogged e] }

/-! ### The program functions -/

/-- The `date_path` computation of `save_recording_to_json` (lines 156-169):
when `recording_data.get("start_datetime")` is truthy, a string and parses,
the partition directory `output_dir/year/month/day`; on a missing value, a
falsy value, a non-string value (whose `.replace` raises, caught at line 165)
or an unparsable date, the flat `output_dir`. -/
def datePathFor (recording_data : PyDict) (output_dir : String) : String :=
  match pyDictGet recording_data "start_datetime" with
  | some v =>
    if pyTruthy v then
      match v with
      | .str s =>
        (match pyParseDatetime s with
         | some (y, m, d) => dateDirPath output_dir y m d
         | none => output_dir)
      | _ => output_dir
    else output_dir
  | none => output_dir

/-- Embedding of `save_recording_to_json` (lines 148-203).  Returns the world
after the call together with either the `(filepath, output_data)` pair on
success or the exception raised: `KeyError` when the dict has no `"id"` key
(line 174, raised after `os.makedirs` already ran), and `TypeError` when a
present title value is not a string (iterating it at line 177 raises; `None`,
numbers and booleans are not iterable — container titles, which CPython would
iterate element-wise, are edge cases outside every claim and are modelled as
the same failure).  On success the written JSON object has exactly the keys
`id, title, url, source, start_datetime, participants, transcript` (lines
186-196) and the success log line is recorded as a `savedFile` event. -/
def save_recording_to_json (recording_data : PyDict) (output_dir : String)
    (w : World) : World × Except PyErr (String × PyDict) :=
  let date_path := datePathFor recording_data output_dir
  let w1 := mkdirs w date_path
  match pyDictGet recording_data "id" with
  | none => (w1, .error (.keyError "id"))
  | some rid =>
    match (pyDictGet recording_data "title").getD (PyVal.str "Untitled") with
    | .str title =>
      let safe_title := sanitizeTitle title
      let filename := pyStr rid ++ "_" ++ safe_title ++ ".json"
      let filepath := date_path ++ "/" ++ filename
      let output_data : PyDict :=
        [("id", rid),
         ("title", (pyDictGet recording_data "title").getD PyVal.nullv),
         ("url", (pyDictGet recording_data "url").getD PyVal.nullv),
         ("source", (pyDictGet recording_data "source").getD PyVal.nullv),
         ("start_datetime", (pyDictGet recording_data "start_datetime").getD PyVal.nullv),
         ("participants", (pyDictGet recording_data "participants").getD (PyVal.list [])),
         ("transcript", (pyDictGet recording_data "transcript_json").getD (PyVal.dict []))]
      let w2 := writeFile w1 date_path filename output_data
      ({ w2 with events := w2.events ++ [Event.savedFile filepath] }, .ok (filepath, output_data))
    | _ => (w1, .error .typeError)

/-- Embedding of `save_cursor_state` (lines 125-134): overwrite the checkpoint
file with the cursor and count (the timestamp field is not modelled) and log
the save message. -/
def save_cursor_state (cursor : String) (count : Nat) (w : World) : World :=
  { w with
    checkpoint := some (cursor, count),
    events := w.events ++ [Event.savedCheckpoint cursor count] }

/-- Embedding of `load_cursor_state` (lines 137-145) at the raw-file level.
The file on disk is `none` when absent, otherwise its textual content;
`parseJson` stands for the external `json.load`, returning `none` when it
raises.  The result pairs the returned value with whether the corrupt-state
log line was printed.  The function is total: no input makes it raise. -/
def load_cursor_state (parseJson : String → Option PyVal) (file : Option String) :
    Option PyVal × Bool :=
  match file with
  | none => (none, false)
  | some content =>
    match parseJson content with
    | some v => (some v, false)
    | none => (none, true)

/-- The already-downloaded check inlined in `process_recording`
(lines 276-307): only runs when `start_datetime` is truthy and the
`recordings` root exists; inside the `try`, a non-string date value or an
unparsable date raises, is swallowed by `except Exception: pass` and yields
no skip; otherwise the recording is considered downloaded exactly when the
date-partition directory exists and some entry of it starts with the id
(`f.startswith(recording_id)` — no underscore separator, and a non-string id
makes `startswith` raise, again swallowed). -/
def alreadyDownloaded (w : World) (rid : PyVal) (sdt : Option PyVal) : Bool :=
  match sdt with
  | none => false
  | some v =>
    if pyTruthy v && dirExists w "recordings" then
      match v with
      | .str s =>
        (match pyParseDatetime s with
         | some (y, m, d) =>
           let dp := dateDirPath "recordings" y m d
           if dirExists w dp then
             match rid with
             | .str ridS => (listdir w dp).any (fun f => pyStartswith f ridS)
             | _ => false
           else false
         | none => false)
      | _ => false
    else false

/-- Embedding of the `process_recording` callback defined inside `main`
(lines 267-317).  Its whole body is wrapped in `try ... except Exception`,
so it never propagates a failure: a missing `"id"` key, a fetch failure of
either kind, or an exception from `save_recording_to_json` is logged and the
function returns.  `fetch` abstracts `client.get_recording`; the `index`
argument is only used for a progress print and is ignored here. -/
def process_recording (fetch : PyVal → Except PyErr PyDict)
    (recording : PyDict) (_index : Nat) (w : World) : World :=
  match pyDictGet recording "id" with
  | none => logError w (.keyError "id")
  | some rid =>
    if alreadyDownloaded w rid (pyDictGet recording "start_datetime") then
      { w with events := w.events ++ [Event.skippedExisting] }
    else
      match fetch rid with
      | .error e => logError w e
      | .ok recording_data =>
        match save_recording_to_json recording_data "recordings" w with
        | (w2, .error e) => logError w2 e
        | (w2, .ok _) => w2

/-- The page loop body of `process_all_recordings` (lines 104-106):
`for recording in recordings: callback(recording, total_processed + 1);
total_processed += 1`. -/
def runPage (callback : PyDict → Nat → World → World) :
    List PyDict → Nat → World → World
  | [], _, w => w
  | r :: rs, total, w => runPage callback rs (total + 1) (callback r (total + 1) w)

/-- A page returned by the listing endpoint, after the transport glue:
`response.get("recordings", [])` and `response.get("cursor")`. -/
structure ListResult where
  recordings : List PyDict
  cursor : Option String

/-- Embedding of `GrainAPIClient.process_all_recordings` (lines 79-122).
`listPage` abstracts `self.list_recordings`; a `.error` models the
`requests` exception propagating out of `raise_for_status`.  The source loop
is `while True:` whose body ends in an unconditional `break` (line 120), and
whose every other path (`if not recordings: break`, `if not cursor: break`)
also breaks, so the body runs exactly once and the embedding is that single
body.  The result pairs the final world with the returned
`total_processed` or the propagated transport error. -/
def process_all_recordings (listPage : Option String → Except PyErr ListResult)
    (callback : PyDict → Nat → World → World)
    (resume_cursor : Option String) (w : World) : World × Except PyErr Nat :=
  match listPage resume_cursor with
  | .error e => (w, .error e)
  | .ok response =>
    if response.recordings.isEmpty then (w, .ok 0)
    else
      let w1 := runPage callback response.recordings 0 w
      let total := response.recordings.length
      match response.cursor with
      | none => (w1, .ok total)
      | some c =>
        if c.data.isEmpty then (w1, .ok total)
        else (save_cursor_state c total w1, .ok total)

/-- Embedding of the non-test branch of `main` (lines 247-333).  The
checkpoint file is modelled at the parsed level by `w0.checkpoint` (the
corrupt-file path of `load_cursor_state` is settled separately);
`resumeAnswer` is the interactive answer to the resume prompt.  When a saved
state exists and the user declines, the file is removed (lines 263-265).
`starting_count` from the loaded state is used by the source only in a
progress print and is not modelled.  On a normal return of
`process_all_recordings`, the checkpoint file is removed (lines 326-327); on
an exception the world is left as is and the error re-raised (lines 330-333). -/
def main (listPage : Option String → Except PyErr ListResult)
    (fetch : PyVal → Except PyErr PyDict)
    (resumeAnswer : Bool) (w0 : World) : World × Except PyErr Nat :=
  let startState : Option String × World :=
    match w0.checkpoint with
    | some (c, _) =>
      if resumeAnswer then (some c, w0)
      else (none, { w0 with checkpoint := none })
    | none => (none, w0)
  match process_all_recordings listPage (process_recording fetch) startState.1 startState.2 with
  | (w2, .ok total) => ({ w2 with checkpoint := none }, .ok total)
  | (w2, .error e) => (w2, .error e)

/-! ### Concrete fixtures used by the claim theorems -/

/-- A listing summary with id `a` and no other fields. -/
def recA : PyDict := [("id", PyVal.str "a")]

/-- A listing summary with id `b` and no other fields. -/
def recB : PyDict := [("id", PyVal.str "b")]

/-- A two-page source: the first page holds `recA` and continues with cursor
`c2`; the page at `c2` holds `recB` and is the last. -/
def srcTwoPages : Option String → Except PyErr ListResult
  | none => .ok { recordings := [recA], cursor := some "c2" }
  | some c =>
    if c = "c2" then .ok { recordings := [recB], cursor := none }
    else .ok { recordings := [], cursor := none }

/-- A source whose page at cursor `c1` holds two records and continues with
cursor `c2`; used for the resumed-run scenario. -/
def srcResume : Option String → Except PyErr ListResult
  | some c =>
    if c = "c1" then .ok { recordings := [recA, recB], cursor := some "c2" }
    else .ok { recordings := [], cursor := none }
  | none => .ok { recordings := [], cursor := none }

/-- A single-page source holding both records with no further cursor. -/
def srcOnePage : Option String → Except PyErr ListResult := fun _ =>
  .ok { recordings := [recA, recB], cursor := none }

/-- An instrumentation callback that only records that it was invoked, used
to observe which records `process_all_recordings` hands to its callback. -/
def traceCb : PyDict → Nat → World → World :=
  fun _ i w => { w with events := w.events ++ [Event.cbCall i] }

/-- A detail-fetch oracle that always succeeds, echoing the id. -/
def fetchOk : PyVal → Except PyErr PyDict := fun rid => .ok [("id", rid)]

/-- A detail-fetch oracle failing with a transport error for id `a` only. -/
def fetchC4 : PyVal → Except PyErr PyDict
  | .str "a" => .error .transport
  | v => .ok [("id", v)]

/-- A detail-fetch oracle that always reports the record as deleted. -/
def fetchNotFound : PyVal → Except PyErr PyDict := fun _ => .error .notFound

/-- A world holding a checkpoint at cursor `c1` with five records processed. -/
def w5 : World := { emptyWorld with checkpoint := some ("c1", 5) }

/-- A world whose date-partition directory for 2024-03-05 holds a file of the
distinct recording `ab2`, while no file of recording `ab` exists. -/
def w1C5 : World :=
  { emptyWorld with dirs := [("recordings", []), ("recordings/2024/03/05", ["ab2_x.json"])] }

/-- A world whose flat output root holds an artifact of recording `ab`. -/
def w2C5 : World :=
  { emptyWorld with dirs := [("recordings", ["ab_x.json"])] }

/-! ### Shared helper lemmas -/

/-- A directory that does not exist lists as empty. -/
theorem listdir_of_not_exists (w : World) (p : String) (h : dirExists w p = false) :
    listdir w p = [] := by
  unfold dirExists at h
  unfold listdir
  cases hg : dirsGet w.dirs p with
  | none => rfl
  | some es => rw [hg] at h; simp at h

/-- A string that parses as a datetime is nonempty, hence truthy. -/
theorem parse_ne_empty (s : String) (t : Nat × Nat × Nat) (h : pyParseDatetime s = some t) :
    s.data.isEmpty = false := by
  cases hs : s.data with
  | nil =>
    unfold pyParseDatetime at h
    rw [hs] at h
    simp [pyReplaceZ, parseIsoChars, readYMD] at h
  | cons c cs => rfl

/-- Every month length is at most 31 days. -/
theorem daysInMonth_le (y m : Nat) : daysInMonth y m ≤ 31 := by
  unfold daysInMonth
  split
  · split <;> omega
  · split <;> omega

/-- A successful datetime parse yields a month in 1..12 and a day in 1..31. -/
theorem parse_bounds (s : String) (y m d : Nat) (h : pyParseDatetime s = some (y, m, d)) :
    1 ≤ m ∧ m ≤ 12 ∧ 1 ≤ d ∧ d ≤ 31 := by
  unfold pyParseDatetime parseIsoChars at h
  cases hr : readYMD (pyReplaceZ s.data) with
  | none => rw [hr] at h; simp at h
  | some t =>
    obtain ⟨y0, m0, d0, rest⟩ := t
    rw [hr] at h
    simp only at h
    split at h
    case isTrue hcond =>
      have hd31 : d0 ≤ 31 := le_trans hcond.2.2.2.2.2 (daysInMonth_le y0 m0)
      cases rest with
      | nil => simp at h; omega
      | cons c timeRest =>
        simp only at h
        split at h
        · simp at h; omega
        · simp at h
    case isFalse => simp at h

/-- Zero-padded rendering of a day or month number always has two digits. -/
theorem pad2_length_two (n : Nat) (h1 : 1 ≤ n) (h2 : n ≤ 31) : (pad2 n).length = 2 := by
  interval_cases n <;> rfl

/-- The artifact writer never touches the checkpoint file. -/
theorem save_preserves_checkpoint (d : PyDict) (dir : String) (w : World) :
    ((save_recording_to_json d dir w).1).checkpoint = w.checkpoint := by
  unfold save_recording_to_json
  cases pyDictGet d "id" with
  | none => simp [mkdirs]
  | some rid =>
    cases (pyDictGet d "title").getD (PyVal.str "Untitled") <;>
      simp [mkdirs, writeFile]

/-- The per-record handler never touches the checkpoint file, whatever the
record contents and whatever the fetch oracle does. -/
theorem process_recording_preserves_checkpoint
    (fetch : PyVal → Except PyErr PyDict) (r : PyDict) (i : Nat) (w : World) :
    (process_recording fetch r i w).checkpoint = w.checkpoint := by
  unfold process_recording
  cases pyDictGet r "id" with
  | none => simp [logError]
  | some rid =>
    cases h : alreadyDownloaded w rid (pyDictGet r "start_datetime") with
    | true => simp [h]
    | false =>
      simp only [h, Bool.false_eq_true, if_false]
      cases hf : fetch rid with
      | error e => simp [logError]
      | ok dd =>
        have hc := save_preserves_checkpoint dd "recordings" w
        cases hs : save_recording_to_json dd "recordings" w with
        | mk w2 res =>
          rw [hs] at hc
          cases res <;> simp_all [logError]

/-- When the fetch of a not-yet-downloaded record fails with any error, the
per-record handler catches it and only logs: the world is unchanged except
for the error event. -/
theorem process_recording_err
    (fetch : PyVal → Except PyErr PyDict) (r : PyDict) (i : Nat) (w : World)
    (rid : PyVal) (e : PyErr)
    (hid : pyDictGet r "id" = some rid)
    (hnd : alreadyDownloaded w rid (pyDictGet r "start_datetime") = false)
    (hf : fetch rid = .error e) :
    process_recording fetch r i w = logError w e := by
  simp [process_recording, hid, hnd, hf]

/-! ### Claim theorems -/

/-- Claim C1 (code bug evidence).  Against the two-page source, whose first
page is non-empty and carries the next cursor `c2` and whose page at `c2` is
non-empty, `process_all_recordings` invokes its callback exactly once (for
the single record of page one), saves the cursor, and returns — the records
of the second page are never handed to the per-record handler, because of
the unconditional `break` ending the first loop iteration (source line 120). -/
theorem c1_pagination_stops_after_first_page :
    (process_all_recordings srcTwoPages traceCb none emptyWorld).2 = Except.ok 1
    ∧ (process_all_recordings srcTwoPages traceCb none emptyWorld).1.events
        = [Event.cbCall 1, Event.savedCheckpoint "c2" 1]
    ∧ srcTwoPages (some "c2") = .ok { recordings := [recB], cursor := none } :=
  ⟨rfl, rfl, rfl⟩

/-- Claim C2 (code bug evidence).  Running `main` fresh against the two-page
source: during the run a checkpoint at cursor `c2` is saved (the
`savedCheckpoint` event and the intermediate world show it), the source still
has a non-empty page at `c2`, yet the run returns normally and `main` deletes
the checkpoint file — the final checkpoint is absent although pages remain. -/
theorem c2_checkpoint_deleted_with_pages_remaining :
    (main srcTwoPages fetchOk true emptyWorld).1.checkpoint = none
    ∧ (main srcTwoPages fetchOk true emptyWorld).2 = Except.ok 1
    ∧ (main srcTwoPages fetchOk true emptyWorld).1.events
        = [Event.savedFile "recordings/a_Untitled.json", Event.savedCheckpoint "c2" 1]
    ∧ (process_all_recordings srcTwoPages (process_recording fetchOk) none emptyWorld).1.checkpoint
        = some ("c2", 1)
    ∧ srcTwoPages (some "c2") = .ok { recordings := [recB], cursor := none } :=
  ⟨rfl, rfl, rfl, rfl, rfl⟩

/-- Claim C3 (code bug evidence).  A run resumed from a checkpoint recording
`processed_count = 5` processes a two-record page and then saves a checkpoint
with `processed_count = 2`: the saved count restarts from zero each run
(`total_processed` in `process_all_recordings` ignores the resumed count), so
a checkpoint save in a resumed run drops below the resumed value. -/
theorem c3_processed_count_resets_on_resume :
    w5.checkpoint = some ("c1", 5)
    ∧ (main srcResume fetchOk true w5).1.events
        = [Event.savedFile "recordings/a_Untitled.json",
           Event.savedFile "recordings/b_Untitled.json",
           Event.savedCheckpoint "c2" 2]
    ∧ 2 < 5 :=
  ⟨rfl, rfl, by omega⟩

/-- Claim C4 (counterexample).  With a fetch oracle raising a transport error
for record `a`, the run over the page `[recA, recB]` is NOT aborted: it logs
the error, continues, saves the artifact of record `b`, and returns
`ok 2` — no failure propagates to the caller. -/
theorem c4_counterexample :
    (process_all_recordings srcOnePage (process_recording fetchC4) none emptyWorld).2
      = Except.ok 2
    ∧ (process_all_recordings srcOnePage (process_recording fetchC4) none emptyWorld).1.events
        = [Event.errorLogged PyErr.transport, Event.savedFile "recordings/b_Untitled.json"]
    ∧ fetchC4 (PyVal.str "a") = Except.error PyErr.transport :=
  ⟨rfl, rfl, rfl⟩

/-- Claim C4 (amended).  A transport error on the detail fetch of a record is
caught inside the per-record handler: the handler never changes the
checkpoint (first conjunct, so the cursor cannot advance past the last
completed page mid-record), and processing of the page continues with the
remaining records after only an error-log event (second conjunct). -/
theorem c4_transport_logged_and_run_continues :
    (∀ (fetch : PyVal → Except PyErr PyDict) (r : PyDict) (i : Nat) (w : World),
      (process_recording fetch r i w).checkpoint = w.checkpoint)
    ∧ (∀ (fetch : PyVal → Except PyErr PyDict) (w : World) (t : Nat)
         (r : PyDict) (rest : List PyDict) (rid : PyVal),
        pyDictGet r "id" = some rid →
        alreadyDownloaded w rid (pyDictGet r "start_datetime") = false →
        fetch rid = Except.error PyErr.transport →
        runPage (process_recording fetch) (r :: rest) t w
          = runPage (process_recording fetch) rest (t + 1)
              { w with events := w.events ++ [Event.errorLogged PyErr.transport] }) := by
  constructor
  · exact process_recording_preserves_checkpoint
  · intro fetch w t r rest rid hid hnd hf
    show runPage (process_recording fetch) rest (t + 1) (process_recording fetch r (t + 1) w) = _
    rw [process_recording_err fetch r (t + 1) w rid PyErr.transport hid hnd hf]
    rfl

/-- Claim C4 (witness).  The amended theorem applied to the concrete
transport-failing fetch oracle and the record with id `a`. -/
theorem c4_transport_logged_and_run_continues_witness :
    runPage (process_recording fetchC4) [recA] 0 emptyWorld
      = runPage (process_recording fetchC4) [] 1
          { emptyWorld with events := emptyWorld.events ++ [Event.errorLogged PyErr.transport] } :=
  c4_transport_logged_and_run_continues.2 fetchC4 emptyWorld 0 recA [] (PyVal.str "a") rfl rfl rfl

/-- Claim C5 (counterexample).  In `w1C5` the date-partition directory for
2024-03-05 holds only `ab2_x.json`, which is not prefixed by `ab` followed by
an underscore, yet the check reports recording `ab` as already downloaded
(the code matches on the bare id).  In `w2C5` the flat output root holds
`ab_x.json`, but with `start_datetime` absent the check reports false: there
is no flat-root fallback. -/
theorem c5_counterexample :
    alreadyDownloaded w1C5 (PyVal.str "ab") (some (PyVal.str "2024-03-05T10:00:00Z")) = true
    ∧ (listdir w1C5 "recordings/2024/03/05").all (fun f => !pyStartswith f ("ab" ++ "_")) = true
    ∧ alreadyDownloaded w2C5 (PyVal.str "ab") none = false
    ∧ ("ab_x.json" ∈ listdir w2C5 "recordings")
    ∧ pyStartswith "ab_x.json" ("ab" ++ "_") = true :=
  ⟨rfl, by decide, rfl, by decide, by decide⟩

/-- Claim C5 (amended).  The existence check returns false whenever
`start_datetime` is absent, falsy or unparsable (no flat-root fallback, and
no error either); when the date parses, it returns true exactly when the
`recordings` root exists and the date-partition directory contains some
filename prefixed by the bare id — with no underscore separator required. -/
theorem c5_existence_check_characterization :
    (∀ (w : World) (rid : PyVal), alreadyDownloaded w rid none = false)
    ∧ (∀ (w : World) (rid v : PyVal), pyTruthy v = false →
        alreadyDownloaded w rid (some v) = false)
    ∧ (∀ (w : World) (rid : PyVal) (s : String), pyParseDatetime s = none →
        alreadyDownloaded w rid (some (PyVal.str s)) = false)
    ∧ (∀ (w : World) (ridS s : String) (y m d : Nat),
        pyParseDatetime s = some (y, m, d) →
        (alreadyDownloaded w (PyVal.str ridS) (some (PyVal.str s)) = true ↔
          dirExists w "recordings" = true ∧
          ∃ f ∈ listdir w (dateDirPath "recordings" y m d), pyStartswith f ridS = true)) := by
  refine ⟨fun w rid => rfl, ?_, ?_, ?_⟩
  · intro w rid v h
    simp [alreadyDownloaded, h]
  · intro w rid s h
    simp [alreadyDownloaded, h]
  · intro w ridS s y m d h
    have hne := parse_ne_empty s _ h
    unfold alreadyDownloaded
    simp only [pyTruthy, hne, Bool.not_false, Bool.true_and]
    cases hr : dirExists w "recordings" with
    | false => simp [hr]
    | true =>
      simp only [hr, if_true, h]
      cases hd : dirExists w (dateDirPath "recordings" y m d) with
      | false => simp [hd, listdir_of_not_exists w _ hd]
      | true => simp [hd, List.any_eq_true]

/-- Claim C5 (witness).  The characterization applied to the two concrete
worlds of the counterexample scenario. -/
theorem c5_existence_check_characterization_witness :
    alreadyDownloaded w2C5 (PyVal.str "ab") none = false
    ∧ (alreadyDownloaded w1C5 (PyVal.str "ab") (some (PyVal.str "2024-03-05T10:00:00Z")) = true ↔
        dirExists w1C5 "recordings" = true ∧
        ∃ f ∈ listdir w1C5 (dateDirPath "recordings" 2024 3 5), pyStartswith f "ab" = true) :=
  ⟨c5_existence_check_characterization.1 w2C5 (PyVal.str "ab"),
   c5_existence_check_characterization.2.2.2 w1C5 "ab" "2024-03-05T10:00:00Z" 2024 3 5 rfl⟩

/-- Claim C6.  A record whose detail fetch reports not-found is skipped with
an error-log event and nothing else: the world is otherwise unchanged and
page processing continues with the subsequent records of the page. -/
theorem c6_notfound_skips_only_that_record :
    ∀ (fetch : PyVal → Except PyErr PyDict) (w : World) (t : Nat)
      (r : PyDict) (rest : List PyDict) (rid : PyVal),
      pyDictGet r "id" = some rid →
      alreadyDownloaded w rid (pyDictGet r "start_datetime") = false →
      fetch rid = Except.error PyErr.notFound →
      runPage (process_recording fetch) (r :: rest) t w
        = runPage (process_recording fetch) rest (t + 1)
            { w with events := w.events ++ [Event.errorLogged PyErr.notFound] } := by
  intro fetch w t r rest rid hid hnd hf
  show runPage (process_recording fetch) rest (t + 1) (process_recording fetch r (t + 1) w) = _
  rw [process_recording_err fetch r (t + 1) w rid PyErr.notFound hid hnd hf]
  rfl

/-- Claim C6 (witness).  The skip theorem applied to the always-deleted fetch
oracle and the record with id `b`. -/
theorem c6_notfound_skips_only_that_record_witness :
    runPage (process_recording fetchNotFound) [recB] 0 emptyWorld
      = runPage (process_recording fetchNotFound) [] 1
          { emptyWorld with events := emptyWorld.events ++ [Event.errorLogged PyErr.notFound] } :=
  c6_notfound_skips_only_that_record fetchNotFound emptyWorld 0 recB [] (PyVal.str "b") rfl rfl rfl

/-- Claim C7 (counterexample).  The title `Café` sanitizes to itself: the
character `é` satisfies the Python Unicode alphanumeric test and is kept, so
the sanitized component is not restricted to ASCII `[A-Za-z0-9 _-]`. -/
theorem c7_counterexample :
    ¬ (∀ c ∈ (sanitizeTitle "Café").data,
        (c.isAlphanum || c = ' ' || c = '-' || c = '_') = true) := by
  decide

/-- Claim C7 (amended).  For any Latin-1 title (the range on which the
embedded alphanumeric test is exact), every character of the sanitized
component satisfies the Python Unicode alphanumeric test or is a space,
hyphen or underscore, and the component is at most 50 characters long. -/
theorem c7_sanitized_charclass_and_length (title : String)
    (h : ∀ c ∈ title.data, c.toNat < 256) :
    (∀ c ∈ (sanitizeTitle title).data, (pyIsAlnum c || c = ' ' || c = '-' || c = '_') = true)
    ∧ (sanitizeTitle title).length ≤ 50 := by
  constructor
  · intro c hc
    have h1 : c ∈ (pyRstrip (title.data.filter
        (fun c => pyIsAlnum c || c = ' ' || c = '-' || c = '_'))).take 50 := hc
    have h2 := List.take_subset 50 _ h1
    have h3 : c ∈ title.data.filter (fun c => pyIsAlnum c || c = ' ' || c = '-' || c = '_') := by
      unfold pyRstrip at h2
      rw [List.mem_reverse] at h2
      have hsub := List.dropWhile_sublist (l := (title.data.filter
        (fun c => pyIsAlnum c || c = ' ' || c = '-' || c = '_')).reverse) (p := pyIsSpaceChar)
      have h4 := hsub.subset h2
      rwa [List.mem_reverse] at h4
    exact (List.mem_filter.mp h3).2
  · have hlen : (sanitizeTitle title).length
        = ((pyRstrip (title.data.filter
            (fun c => pyIsAlnum c || c = ' ' || c = '-' || c = '_'))).take 50).length := rfl
    rw [hlen]
    exact List.length_take_le 50 _

/-- Claim C7 (witness).  The amended theorem applied to the title the
specification uses as its example, together with the concrete value of its
sanitized component. -/
theorem c7_sanitized_charclass_and_length_witness :
    ((∀ c ∈ (sanitizeTitle "Q1 Review: Eng/Product!!").data,
        (pyIsAlnum c || c = ' ' || c = '-' || c = '_') = true)
      ∧ (sanitizeTitle "Q1 Review: Eng/Product!!").length ≤ 50)
    ∧ sanitizeTitle "Q1 Review: Eng/Product!!" = "Q1 Review EngProduct" :=
  ⟨c7_sanitized_charclass_and_length "Q1 Review: Eng/Product!!" (by decide), by decide⟩

/-- Claim C8.  With a parsable `start_datetime` the artifact directory is
`root/year/month/day` with two-digit zero-padded month and day; with the
field absent or unparsable it is the flat root; and every successful save
places its file directly inside that directory. -/
theorem c8_date_partitioning :
    (∀ (data : PyDict) (dir s : String) (y m d : Nat),
      pyDictGet data "start_datetime" = some (PyVal.str s) →
      pyParseDatetime s = some (y, m, d) →
      datePathFor data dir = dir ++ "/" ++ toString y ++ "/" ++ pad2 m ++ "/" ++ pad2 d
        ∧ (pad2 m).length = 2 ∧ (pad2 d).length = 2)
    ∧ (∀ (data : PyDict) (dir : String),
        pyDictGet data "start_datetime" = none → datePathFor data dir = dir)
    ∧ (∀ (data : PyDict) (dir s : String),
        pyDictGet data "start_datetime" = some (PyVal.str s) →
        pyParseDatetime s = none → datePathFor data dir = dir)
    ∧ (∀ (w : World) (dir : String) (data : PyDict) (p : String) (out : PyDict),
        (save_recording_to_json data dir w).2 = Except.ok (p, out) →
        ∃ fn, p = datePathFor data dir ++ "/" ++ fn) := by
  refine ⟨?_, ?_, ?_, ?_⟩
  · intro data dir s y m d hget hp
    have hne := parse_ne_empty s _ hp
    have hb := parse_bounds s y m d hp
    refine ⟨?_, pad2_length_two m hb.1 (by omega), pad2_length_two d hb.2.2.1 hb.2.2.2⟩
    simp [datePathFor, hget, pyTruthy, hne, hp, dateDirPath]
  · intro data dir hget
    simp [datePathFor, hget]
  · intro data dir s hget hp
    simp [datePathFor, hget, hp]
  · intro w dir data p out h
    unfold save_recording_to_json at h
    cases hid : pyDictGet data "id" with
    | none => rw [hid] at h; simp at h
    | some rid =>
      rw [hid] at h
      cases ht : (pyDictGet data "title").getD (PyVal.str "Untitled") <;> rw [ht] at h <;>
        simp only at h
      case str title =>
        simp only [Except.ok.injEq, Prod.mk.injEq] at h
        exact ⟨pyStr rid ++ "_" ++ sanitizeTitle title ++ ".json", h.1.symm⟩
      all_goals simp_all

/-- Claim C8 (witness).  The partition theorem applied to the example of the
specification, `start_datetime = 2024-03-05T10:00:00Z`, landing under
`recordings/2024/03/05`, and to a record with no `start_datetime`, landing
under the flat root. -/
theorem c8_date_partitioning_witness :
    datePathFor [("id", PyVal.str "r"), ("start_datetime", PyVal.str "2024-03-05T10:00:00Z")]
        "recordings" = "recordings/2024/03/05"
    ∧ datePathFor recA "recordings" = "recordings" :=
  ⟨(c8_date_partitioning.1 [("id", PyVal.str "r"),
      ("start_datetime", PyVal.str "2024-03-05T10:00:00Z")]
      "recordings" "2024-03-05T10:00:00Z" 2024 3 5 rfl rfl).1,
   c8_date_partitioning.2.1 recA "recordings" rfl⟩

/-- Claim C9.  The checkpoint load returns an absent state when no file
exists, and when the content fails to parse it returns an absent state
together with the logged message; the function is total, so a corrupt
checkpoint never fails the run. -/
theorem c9_corrupt_checkpoint_treated_absent (parseJson : String → Option PyVal) :
    load_cursor_state parseJson none = (none, false)
    ∧ ∀ content, parseJson content = none →
        load_cursor_state parseJson (some content) = (none, true) := by
  refine ⟨rfl, ?_⟩
  intro content h
  simp [load_cursor_state, h]

/-- Claim C9 (witness).  The load theorem applied to a parser that rejects
everything and to a concrete unparsable content. -/
theorem c9_corrupt_checkpoint_treated_absent_witness :
    load_cursor_state (fun _ => none) none = (none, false)
    ∧ load_cursor_state (fun _ => none) (some "garbage") = (none, true) :=
  ⟨(c9_corrupt_checkpoint_treated_absent (fun _ => none)).1,
   (c9_corrupt_checkpoint_treated_absent (fun _ => none)).2 "garbage" rfl⟩

/-- Claim C10 (counterexample).  A dict with an id but a null title makes
`save_recording_to_json` fail (iterating `None` at the sanitization step
raises in Python), so the save does not succeed for every dict containing an
id key. -/
theorem c10_counterexample :
    (save_recording_to_json [("id", PyVal.str "r1"), ("title", PyVal.nullv)]
        "recordings" emptyWorld).2 = Except.error PyErr.typeError := rfl

/-- Claim C10 (amended).  For every dict with an id whose title, when
present, is a string, the save succeeds and the written object has exactly
the keys id, title, url, source, start_datetime, participants, transcript,
with participants defaulting to the empty list, transcript taken from
`transcript_json` defaulting to the empty object, and the filename built
from the sanitized title (`Untitled` when the key is absent); a dict lacking
the id key fails with a KeyError. -/
theorem c10_save_output_schema :
    (∀ (w : World) (dir : String) (data : PyDict) (rid : PyVal) (titleS : String),
      pyDictGet data "id" = some rid →
      (pyDictGet data "title").getD (PyVal.str "Untitled") = PyVal.str titleS →
      (save_recording_to_json data dir w).2
        = Except.ok (datePathFor data dir ++ "/" ++
              (pyStr rid ++ "_" ++ sanitizeTitle titleS ++ ".json"),
            [("id", rid),
             ("title", (pyDictGet data "title").getD PyVal.nullv),
             ("url", (pyDictGet data "url").getD PyVal.nullv),
             ("source", (pyDictGet data "source").getD PyVal.nullv),
             ("start_datetime", (pyDictGet data "start_datetime").getD PyVal.nullv),
             ("participants", (pyDictGet data "participants").getD (PyVal.list [])),
             ("transcript", (pyDictGet data "transcript_json").getD (PyVal.dict []))]))
    ∧ (∀ (w : World) (dir : String) (data : PyDict), pyDictGet data "id" = none →
        (save_recording_to_json data dir w).2 = Except.error (PyErr.keyError "id")) := by
  constructor
  · intro w dir data rid titleS hid ht
    simp [save_recording_to_json, hid, ht]
  · intro w dir data hid
    simp [save_recording_to_json, hid]

/-- Claim C10 (witness).  The schema theorem applied to the concrete record
with id `a` and no further keys: the artifact lands at
`recordings/a_Untitled.json` with every optional field defaulted. -/
theorem c10_save_output_schema_witness :
    (save_recording_to_json recA "recordings" emptyWorld).2
      = Except.ok ("recordings/a_Untitled.json",
          [("id", PyVal.str "a"), ("title", PyVal.nullv), ("url", PyVal.nullv),
           ("source", PyVal.nullv), ("start_datetime", PyVal.nullv),
           ("participants", PyVal.list []), ("transcript", PyVal.dict [])]) :=
  c10_save_output_schema.1 emptyWorld "recordings" recA (PyVal.str "a") "Untitled" rfl rfl

end Grain
